import Mathlib

/-!
Verification of the progress / quiz-scoring / study-streak engine of the
learn_platform_ai backend (src/backend/learning_plan/models.py and
src/backend/learning_plan/views.py).

Modelling conventions of the shallow embedding:
* database tables are lists of row structures; the Django ORM calls
  (filter / get_or_create / create / save) become list operations;
* Python unbounded integers are Nat / Int, calendar dates are Int
  (days), timestamps are Int;
* Python floats are modelled as rationals; the primitive round(x, 2)
  used by both the code and the spec is modelled once, by round2;
* a view returning an error response (404 / 400) is an Option returning
  none.
-/

namespace LearnPlatform

/-- Model of the Python primitive round(x, 2): round to the nearest
multiple of 1/100, that is ⌊100 x + 1/2⌋ / 100 (see round2_eq_floor
below).  Both the code under test and the specification invoke the same
primitive, so a single shared model is used.  Stated over integer
numerator and denominator so that it evaluates by kernel reduction. -/
def round2 (x : ℚ) : ℚ := mkRat ((200 * x.num + x.den).fdiv (2 * x.den)) 100

/-- Row of learning_plan.models.LearningPlan (fields used by the core:
pk, owner FK, cached progress percentage). -/
structure LearningPlan where
  id : ℕ
  user : ℕ
  progress : ℚ
deriving DecidableEq, Repr

/-- Row of learning_plan.models.Lesson (fields used by the core). -/
structure Lesson where
  id : ℕ
  plan : ℕ
  title : String
  time_estimate : ℕ
  day_number : ℕ
deriving DecidableEq, Repr

/-- Row of learning_plan.models.UserProgress. -/
structure UserProgress where
  user : ℕ
  lesson : ℕ
  is_completed : Bool
  completed_at : Option ℤ
  time_spent : ℕ
deriving DecidableEq, Repr

/-- Row of learning_plan.models.Quiz. -/
structure Quiz where
  id : ℕ
  lesson : ℕ
  title : String
deriving DecidableEq, Repr

/-- Row of learning_plan.models.QuizQuestion. -/
structure QuizQuestion where
  id : ℕ
  quiz : ℕ
  question_text : String
  option_a : String
  option_b : String
  option_c : String
  option_d : String
  correct_answer : String
  explanation : String
deriving DecidableEq, Repr

/-- Row of learning_plan.models.QuizAttempt.  The answers JSON mapping
is an association list from question id to submitted label. -/
structure QuizAttempt where
  user : ℕ
  quiz : ℕ
  score : ℚ
  answers : List (ℕ × String)
deriving DecidableEq, Repr

/-- Row of learning_plan.models.LessonNote. -/
structure LessonNote where
  user : ℕ
  lesson : ℕ
  content : String
deriving DecidableEq, Repr

/-- Row of learning_plan.models.StudyStreak. -/
structure StudyStreak where
  user : ℕ
  date : ℤ
  lessons_completed : ℕ
  quizzes_taken : ℕ
  notes_created : ℕ
  total_time_spent : ℕ
deriving DecidableEq, Repr

/-- StudyStreak.activity_score (models.py line 252): weighted activity
sum used for the heatmap. -/
def StudyStreak.activity_score (s : StudyStreak) : ℕ :=
  s.lessons_completed * 3 + s.quizzes_taken * 2 + s.notes_created

/-- The relational store: one list per table. -/
structure DB where
  plans : List LearningPlan
  lessons : List Lesson
  marks : List UserProgress
  quizzes : List Quiz
  questions : List QuizQuestion
  attempts : List QuizAttempt
  notes : List LessonNote
  streaks : List StudyStreak
deriving DecidableEq, Repr

/-! ## Progress engine (LearningPlan.calculate_progress, models.py 47-75) -/

/-- self.items.count(): number of lessons belonging to the plan. -/
def totalLessons (db : DB) (planId : ℕ) : ℕ :=
  (db.lessons.filter (fun l => l.plan == planId)).length

/-- The ORM join lesson__plan: the mark's lesson belongs to the plan. -/
def lessonInPlan (db : DB) (lessonId planId : ℕ) : Bool :=
  db.lessons.any (fun l => l.id == lessonId && l.plan == planId)

/-- UserProgress.objects.filter(lesson__plan=self, user=self.user,
is_completed=True).count(). -/
def completedLessons (db : DB) (p : LearningPlan) : ℕ :=
  (db.marks.filter
    (fun m => lessonInPlan db m.lesson p.id && m.user == p.user && m.is_completed)).length

/-- self.save(update_fields=[]): write the new percentage onto the row
of the plan with the given pk. -/
def updatePlanProgress (plans : List LearningPlan) (planId : ℕ) (pct : ℚ) :
    List LearningPlan :=
  plans.map (fun q => if q.id == planId then { q with progress := pct } else q)

/-- LearningPlan.calculate_progress: returns the percentage and, on the
nonempty path, persists it on the plan row (save(update_fields)); on
the zero-lesson path the method returns 0.0 before any write. -/
def calculate_progress (db : DB) (p : LearningPlan) : ℚ × DB :=
  let total := totalLessons db p.id
  if total = 0 then (0, db)
  else
    let completed := completedLessons db p
    let pct := round2 (((completed : ℚ) / (total : ℚ)) * 100)
    (pct, { db with plans := updatePlanProgress db.plans p.id pct })

/-! ## Quiz scoring engine (QuizSubmitView.post, views.py 296-376) -/

/-- One entry of the per-question results list built by the view. -/
structure QuestionResult where
  question_id : ℕ
  question : String
  user_answer : String
  correct_answer : String
  is_correct : Bool
  explanation : String
deriving DecidableEq, Repr

/-- The response payload of a successful quiz submission. -/
structure SubmitResult where
  score : ℚ
  correct_count : ℕ
  total_questions : ℕ
  results : List QuestionResult
deriving DecidableEq, Repr

/-- Python str.upper(), character by character.  (Defined directly on
the character list so that it evaluates by kernel reduction.) -/
def upper (s : String) : String := String.mk (s.data.map Char.toUpper)

/-- user_answers.get(str(question.id), ""): dictionary lookup with an
empty-string default for a missing key. -/
def lookupAnswer (answers : List (ℕ × String)) (qid : ℕ) : String :=
  match answers.find? (fun a => a.1 == qid) with
  | some a => a.2
  | none => ""

/-- The ORM join lesson__plan__user on Quiz.objects.get: the quiz
belongs to a lesson of a plan owned by the user. -/
def quizOwnedBy (db : DB) (z : Quiz) (u : ℕ) : Bool :=
  db.lessons.any (fun l => l.id == z.lesson &&
    db.plans.any (fun p => p.id == l.plan && p.user == u))

/-- quiz.questions.all(): the questions belonging to a quiz. -/
def quizQuestions (db : DB) (quizId : ℕ) : List QuizQuestion :=
  db.questions.filter (fun q => q.quiz == quizId)

/-- Body of the per-question loop of QuizSubmitView.post: uppercase the
submitted answer (missing key gives ""), compare with the stored
correct label, build the result record. -/
def gradeQuestion (answers : List (ℕ × String)) (q : QuizQuestion) : QuestionResult :=
  let ua := upper (lookupAnswer answers q.id)
  { question_id := q.id
    question := q.question_text
    user_answer := ua
    correct_answer := q.correct_answer
    is_correct := ua == q.correct_answer
    explanation := q.explanation }

/-- The results list built by the per-question loop. -/
def gradeResults (db : DB) (quizId : ℕ) (answers : List (ℕ × String)) :
    List QuestionResult :=
  (quizQuestions db quizId).map (gradeQuestion answers)

/-- correct_count: how many per-question results are marked correct. -/
def correctCount (db : DB) (quizId : ℕ) (answers : List (ℕ × String)) : ℕ :=
  ((gradeResults db quizId answers).filter (fun r => r.is_correct)).length

/-- score = correct_count / total_questions * 100 if total_questions >
0 else 0 (views.py 350).  This raw value is what the view persists on
the QuizAttempt; the response body carries round(score, 2). -/
def rawScore (db : DB) (quizId : ℕ) (answers : List (ℕ × String)) : ℚ :=
  if 0 < (quizQuestions db quizId).length then
    ((correctCount db quizId answers : ℚ) / ((quizQuestions db quizId).length : ℚ)) * 100
  else 0

/-! ## Streak ledger (the three get_or_create-then-increment blocks) -/

/-- StudyStreak.objects.get_or_create(user=..., date=...): the lookup
half. -/
def findStreak (streaks : List StudyStreak) (u : ℕ) (d : ℤ) : Option StudyStreak :=
  streaks.find? (fun s => s.user == u && s.date == d)

/-- A fresh StudyStreak row as created by get_or_create: model
defaults everywhere except the counter named in defaults. -/
def freshStreakRow (u : ℕ) (today : ℤ) (ls qz nt : ℕ) : StudyStreak :=
  { user := u, date := today, lessons_completed := ls, quizzes_taken := qz,
    notes_created := nt, total_time_spent := 0 }

/-- streak.lessons_completed += 1 on the (user, today) row. -/
def incLessons (u : ℕ) (today : ℤ) (s : StudyStreak) : StudyStreak :=
  if s.user == u && s.date == today then
    { s with lessons_completed := s.lessons_completed + 1 }
  else s

/-- streak.quizzes_taken += 1 on the (user, today) row. -/
def incQuizzes (u : ℕ) (today : ℤ) (s : StudyStreak) : StudyStreak :=
  if s.user == u && s.date == today then
    { s with quizzes_taken := s.quizzes_taken + 1 }
  else s

/-- streak.notes_created += 1 on the (user, today) row. -/
def incNotes (u : ℕ) (today : ℤ) (s : StudyStreak) : StudyStreak :=
  if s.user == u && s.date == today then
    { s with notes_created := s.notes_created + 1 }
  else s

/-- LessonCompleteView.post streak block (views.py 199-207): create the
day row with defaults (all counters 0) when absent, then increment
lessons_completed by 1 and save (net effect on a fresh row: 1). -/
def recordLesson (db : DB) (u : ℕ) (today : ℤ) : DB :=
  match findStreak db.streaks u today with
  | some _ => { db with streaks := db.streaks.map (incLessons u today) }
  | none => { db with streaks := freshStreakRow u today 1 0 0 :: db.streaks }

/-- QuizSubmitView.post streak block (views.py 360-369): create the day
row with quizzes_taken = 1 when absent, else increment quizzes_taken. -/
def recordQuiz (db : DB) (u : ℕ) (today : ℤ) : DB :=
  match findStreak db.streaks u today with
  | some _ => { db with streaks := db.streaks.map (incQuizzes u today) }
  | none => { db with streaks := freshStreakRow u today 0 1 0 :: db.streaks }

/-- LessonNotesView.perform_create streak block (views.py 399-408):
create the day row with notes_created = 1 when absent, else increment
notes_created. -/
def recordNote (db : DB) (u : ℕ) (today : ℤ) : DB :=
  match findStreak db.streaks u today with
  | some _ => { db with streaks := db.streaks.map (incNotes u today) }
  | none => { db with streaks := freshStreakRow u today 0 0 1 :: db.streaks }

/-- QuizSubmitView.post.  Returns none on the 404 path, otherwise the
response payload (score rounded to 2 decimals in the response body) and
the updated store (the raw score persisted on the new attempt,
prepended since QuizAttempt is ordered newest-first). -/
def quizSubmit (db : DB) (u qid : ℕ) (answers : List (ℕ × String)) (today : ℤ) :
    Option (SubmitResult × DB) :=
  match db.quizzes.find? (fun z => z.id == qid && quizOwnedBy db z u) with
  | none => none
  | some quiz =>
    let db1 := { db with attempts := { user := u, quiz := quiz.id, score := rawScore db quiz.id answers, answers := answers } :: db.attempts }
    some ({ score := round2 (rawScore db quiz.id answers)
            correct_count := correctCount db quiz.id answers
            total_questions := (quizQuestions db quiz.id).length
            results := gradeResults db quiz.id answers },
          recordQuiz db1 u today)

/-! ## Completion toggle (LessonCompleteView.post, views.py 154-213) -/

/-- The defaults with which UserProgress.objects.get_or_create creates
a missing mark row. -/
def defaultMark (u lid : ℕ) : UserProgress :=
  { user := u, lesson := lid, is_completed := false, completed_at := none,
    time_spent := 0 }

/-- The mark object the view works on: the existing (user, lesson) row,
or the freshly created default. -/
def oldMarkOf (db : DB) (u lid : ℕ) : UserProgress :=
  (db.marks.find? (fun m => m.user == u && m.lesson == lid)).getD (defaultMark u lid)

/-- Lines 187-193 of views.py: flip is_completed, set completed_at to
now exactly when now completed, default time_spent to the lesson's
estimate when completing a mark whose time_spent is 0. -/
def toggledMark (old : UserProgress) (timeEst : ℕ) (now : ℤ) : UserProgress :=
  let completed := !old.is_completed
  { old with
    is_completed := completed
    completed_at := if completed then some now else none
    time_spent := if completed && old.time_spent == 0 then timeEst else old.time_spent }

/-- progress.save(): persist the toggled mark on its (user, lesson)
row, inserting the row when get_or_create created it. -/
def saveMark (db : DB) (u lid : ℕ) (m : UserProgress) : DB :=
  if db.marks.any (fun x => x.user == u && x.lesson == lid) then
    { db with marks := db.marks.map (fun x => if x.user == u && x.lesson == lid then m else x) }
  else { db with marks := m :: db.marks }

/-- time_estimate of the lesson row with the given pk (0 when absent;
only used on paths where the lesson was found). -/
def estimateOf (db : DB) (lid : ℕ) : ℕ :=
  match db.lessons.find? (fun l => l.id == lid) with
  | some l => l.time_estimate
  | none => 0

/-- LessonCompleteView.post.  none models the 404 path
(Lesson.objects.get(pk=lesson_id, plan__user=request.user) failing).
Otherwise: toggle the mark, recompute the plan progress, update the
streak ledger when the mark became completed, and answer with the new
completion flag and the plan's progress. -/
def lessonComplete (db : DB) (u lid : ℕ) (now today : ℤ) :
    Option (Bool × ℚ × DB) :=
  match db.lessons.find? (fun l => l.id == lid) with
  | none => none
  | some lesson =>
    match db.plans.find? (fun p => p.id == lesson.plan && p.user == u) with
    | none => none
    | some plan =>
      let m := toggledMark (oldMarkOf db u lid) lesson.time_estimate now
      let db1 := saveMark db u lid m
      let out := calculate_progress db1 plan
      let db2 := if m.is_completed then recordLesson out.2 u today else out.2
      let resp := if totalLessons db1 plan.id = 0 then plan.progress else out.1
      some (m.is_completed, resp, db2)

/-- LessonNotesView.perform_create: store the note, then update the
streak ledger. -/
def noteCreate (db : DB) (u lid : ℕ) (content : String) (today : ℤ) : DB :=
  recordNote
    { db with notes := { user := u, lesson := lid, content := content } :: db.notes }
    u today

/-! ## Streak analytics (StudyStreakView.get, views.py 521-617) -/

/-- One entry of the 365-day activity calendar. -/
structure CalendarEntry where
  date : ℤ
  count : ℕ
  lessons : ℕ
  quizzes : ℕ
  notes : ℕ
deriving DecidableEq, Repr

/-- The response payload of the streak statistics view. -/
structure StreakStats where
  current_streak : ℕ
  longest_streak : ℕ
  total_active_days : ℕ
  activity_calendar : List CalendarEntry
  streak_status : String
deriving DecidableEq, Repr

/-- Insert a row into a list kept sorted by descending date. -/
def insertDesc (r : StudyStreak) : List StudyStreak → List StudyStreak
  | [] => [r]
  | s :: rest => if s.date ≤ r.date then r :: s :: rest else s :: insertDesc r rest

/-- order_by(date descending): the queryset ordering of the view. -/
def sortDesc : List StudyStreak → List StudyStreak
  | [] => []
  | r :: rest => insertDesc r (sortDesc rest)

/-- streaks.filter(date=d).exists(). -/
def hasDate (rows : List StudyStreak) (d : ℤ) : Bool :=
  rows.any (fun r => r.date == d)

/-- The current-streak walk (views.py 555-563): up to the given fuel
(365 in the view), count consecutive days with a row, walking backward
from the start date and stopping at the first gap. -/
def currentStreakAux (rows : List StudyStreak) : ℕ → ℤ → ℕ
  | 0, _ => 0
  | n + 1, d => if hasDate rows d then currentStreakAux rows n (d - 1) + 1 else 0

/-- The longest-streak scan (views.py 566-576): walk adjacent pairs of
the descending date list, growing the running streak on a difference of
exactly one day and resetting it to 1 otherwise; returns the pair
(longest seen inside the loop, final running streak). -/
def longestLoop : List ℤ → ℕ → ℕ → ℕ × ℕ
  | d1 :: d2 :: rest, best, temp =>
    if d1 - d2 = 1 then longestLoop (d2 :: rest) (max best (temp + 1)) (temp + 1)
    else longestLoop (d2 :: rest) best 1
  | _, best, temp => (best, temp)

/-- Calendar entry for one date: the stored counters when a row exists
for that date, zero-filled otherwise (views.py 583-593). -/
def calendarEntry (rows : List StudyStreak) (d : ℤ) : CalendarEntry :=
  match rows.find? (fun r => r.date == d) with
  | some r =>
    { date := d, count := r.activity_score, lessons := r.lessons_completed,
      quizzes := r.quizzes_taken, notes := r.notes_created }
  | none => { date := d, count := 0, lessons := 0, quizzes := 0, notes := 0 }

/-- The current streak of the view: walk backward from today with a
365-day bound. -/
def currentStreakOf (sorted : List StudyStreak) (today : ℤ) : ℕ :=
  currentStreakAux sorted 365 today

/-- longest_streak = max(longest_streak, temp_streak, current_streak)
after the adjacent-pair scan (views.py 577). -/
def longestStreakOf (sorted : List StudyStreak) (cur : ℕ) : ℕ :=
  max (max (longestLoop (sorted.map (fun r => r.date)) 0 1).1
        (longestLoop (sorted.map (fun r => r.date)) 0 1).2) cur

/-- The 365-entry activity calendar spanning today-364 .. today,
oldest first (views.py 580-593). -/
def calendarOf (sorted : List StudyStreak) (today : ℤ) : List CalendarEntry :=
  (List.range 365).map (fun i : ℕ => calendarEntry sorted (today - 364 + (i : ℤ)))

/-- The streak-status dispatch (views.py 596-606), on the number of
days since the last activity date. -/
def statusOf (lastDate today : ℤ) (cur : ℕ) : String :=
  if today - lastDate = 0 then "active_today"
  else if today - lastDate = 1 ∧ 0 < cur then "active_yesterday"
  else if 0 < cur then "active"
  else "inactive"

/-- StudyStreakView.get on the rows of one user: all-zero stats with an
empty calendar when the user has no rows at all; otherwise the current
streak (bounded by 365 days of lookback), the longest streak (floored
by the current streak), the 365-entry calendar ending today, and the
streak status derived from the most recent activity date (the head of
the descending ordering). -/
def computeStreakStats (rows : List StudyStreak) (today : ℤ) : StreakStats :=
  match sortDesc rows with
  | [] =>
    { current_streak := 0, longest_streak := 0, total_active_days := 0,
      activity_calendar := [], streak_status := "inactive" }
  | first :: rest =>
    { current_streak := currentStreakOf (first :: rest) today
      longest_streak := longestStreakOf (first :: rest) (currentStreakOf (first :: rest) today)
      total_active_days := (first :: rest).length
      activity_calendar := calendarOf (first :: rest) today
      streak_status := statusOf first.date today (currentStreakOf (first :: rest) today) }

/-- The view itself: statistics over the requesting user's rows. -/
def studyStreakStats (db : DB) (u : ℕ) (today : ℤ) : StreakStats :=
  computeStreakStats (db.streaks.filter (fun s => s.user == u)) today

/-! ## Quiz generation (QuizGenerateView.post, views.py 216-280)

The external generation call is a parameter: none models the call (or
the JSON parsing inside generate_quiz_questions) raising, some ds a
parsed list of question descriptors.  A descriptor field is an Option
because the view reads the required keys with q_data[...], which raises
on a missing key; only explanation is read with .get and a default. -/

/-- A parsed question descriptor from the generation service. -/
structure QDescriptor where
  question : Option String
  option_a : Option String
  option_b : Option String
  option_c : Option String
  option_d : Option String
  correct_answer : Option String
  explanation : Option String
deriving DecidableEq, Repr

/-- The four response classes of QuizGenerateView.post: 404, 200 with
the already-existing quiz, 201 created, 500 error. -/
inductive GenOutcome where
  | notFound
  | existing
  | created
  | failed
deriving DecidableEq, Repr

/-- All required keys present: the question-creation statement runs
without raising. -/
def descComplete (d : QDescriptor) : Bool :=
  d.question.isSome && d.option_a.isSome && d.option_b.isSome &&
    d.option_c.isSome && d.option_d.isSome && d.correct_answer.isSome

/-- QuizQuestion.objects.create(...) for one descriptor (the correct
answer is upper-cased at creation). -/
def mkQuestion (quizId qid : ℕ) (d : QDescriptor) : QuizQuestion :=
  { id := qid, quiz := quizId, question_text := d.question.getD "",
    option_a := d.option_a.getD "", option_b := d.option_b.getD "",
    option_c := d.option_c.getD "", option_d := d.option_d.getD "",
    correct_answer := upper (d.correct_answer.getD ""),
    explanation := d.explanation.getD "" }

/-- The creation loop: create question rows one by one; a descriptor
with a missing required key raises, which the view catches after the
earlier rows were already written — the Bool reports success, the DB
keeps whatever was created before the failure. -/
def createQuestions (quizId : ℕ) : DB → ℕ → List QDescriptor → Bool × DB
  | db, _, [] => (true, db)
  | db, qid, d :: rest =>
    if descComplete d then
      createQuestions quizId
        { db with questions := db.questions ++ [mkQuestion quizId qid d] }
        (qid + 1) rest
    else (false, db)

/-- Quiz.objects.create(lesson=lesson, title=f"Quiz: ..."). -/
def newQuizRow (newQuizId : ℕ) (lesson : Lesson) : Quiz :=
  { id := newQuizId, lesson := lesson.id, title := "Quiz: " ++ lesson.title }

/-- QuizGenerateView.post: 404 when the lesson is not owned, the
existing quiz when one is already attached to the lesson, otherwise
create the parent Quiz row first and then the question rows; a
generation failure before parsing leaves the store unchanged, a
failure while consuming the descriptors leaves the parent and the
earlier questions behind (there is no transaction). -/
def quizGenerate (db : DB) (u lid newQuizId qid0 : ℕ)
    (gen : Option (List QDescriptor)) : GenOutcome × DB :=
  match db.lessons.find? (fun l => l.id == lid &&
      db.plans.any (fun p => p.id == l.plan && p.user == u)) with
  | none => (GenOutcome.notFound, db)
  | some lesson =>
    if db.quizzes.any (fun z => z.lesson == lesson.id) then (GenOutcome.existing, db)
    else
      match gen with
      | none => (GenOutcome.failed, db)
      | some ds =>
        let db1 := { db with quizzes := newQuizRow newQuizId lesson :: db.quizzes }
        let out := createQuestions newQuizId db1 qid0 ds
        (if out.1 then GenOutcome.created else GenOutcome.failed, out.2)

/-! ## Concrete fixtures used by witnesses and counterexamples -/

/-- A plan with two lessons, one completed by the owner (user 7). -/
def exPlan1 : LearningPlan := { id := 1, user := 7, progress := 0 }

/-- Store for the progress-formula witness. -/
def exDB1 : DB :=
  { plans := [exPlan1]
    lessons := [{ id := 1, plan := 1, title := "a", time_estimate := 10, day_number := 1 },
                { id := 2, plan := 1, title := "b", time_estimate := 10, day_number := 2 }]
    marks := [{ user := 7, lesson := 1, is_completed := true, completed_at := some 0,
                time_spent := 10 }]
    quizzes := [], questions := [], attempts := [], notes := [], streaks := [] }

/-- A completed mark belonging to user 9, not the owner of exPlan1,
referencing a lesson of that plan. -/
def exMark9 : UserProgress :=
  { user := 9, lesson := 1, is_completed := true, completed_at := some 0, time_spent := 5 }

/-- A plan with no lessons whose stored progress is 50. -/
def pC4 : LearningPlan := { id := 1, user := 7, progress := 50 }

/-- Store for the zero-lesson counterexample: one plan, no lessons. -/
def dbC4 : DB :=
  { plans := [pC4], lessons := [], marks := [], quizzes := [], questions := [],
    attempts := [], notes := [], streaks := [] }

/-- Store for the quiz-scoring claims: one owned quiz with three
questions whose correct answers are A, B, C. -/
def exDB2 : DB :=
  { plans := [{ id := 1, user := 7, progress := 0 }]
    lessons := [{ id := 1, plan := 1, title := "L", time_estimate := 30, day_number := 1 }]
    marks := []
    quizzes := [{ id := 1, lesson := 1, title := "Q" }]
    questions :=
      [{ id := 1, quiz := 1, question_text := "q1", option_a := "a", option_b := "b",
         option_c := "c", option_d := "d", correct_answer := "A", explanation := "" },
       { id := 2, quiz := 1, question_text := "q2", option_a := "a", option_b := "b",
         option_c := "c", option_d := "d", correct_answer := "B", explanation := "" },
       { id := 3, quiz := 1, question_text := "q3", option_a := "a", option_b := "b",
         option_c := "c", option_d := "d", correct_answer := "C", explanation := "" }]
    attempts := [], notes := [], streaks := [] }

/-- The submission of spec property 9: a lower-case right answer, a
wrong answer, a right answer, so 2 of 3 correct. -/
def exAnswers : List (ℕ × String) := [(1, "a"), (2, "x"), (3, "C")]

/-- Store with one owned lesson and one owned one-question quiz, used
by the completion-toggle and frame-effect witnesses. -/
def exDB9 : DB :=
  { plans := [{ id := 1, user := 7, progress := 0 }]
    lessons := [{ id := 1, plan := 1, title := "L", time_estimate := 30, day_number := 1 }]
    marks := []
    quizzes := [{ id := 1, lesson := 1, title := "Q" }]
    questions := [{ id := 1, quiz := 1, question_text := "q", option_a := "a", option_b := "b",
                    option_c := "c", option_d := "d", correct_answer := "A", explanation := "" }]
    attempts := [], notes := [], streaks := [] }

/-- Store for the quiz-generation claim: one owned lesson, no quiz. -/
def exDB8 : DB :=
  { plans := [{ id := 1, user := 7, progress := 0 }]
    lessons := [{ id := 1, plan := 1, title := "L", time_estimate := 30, day_number := 1 }]
    marks := [], quizzes := [], questions := [], attempts := [], notes := [], streaks := [] }

/-- A complete descriptor from the generation service. -/
def goodDesc : QDescriptor :=
  { question := some "q1", option_a := some "a", option_b := some "b",
    option_c := some "c", option_d := some "d", correct_answer := some "A",
    explanation := some "e" }

/-- A descriptor missing the required option_a key: reading it raises. -/
def badDesc : QDescriptor :=
  { question := some "q2", option_a := none, option_b := some "b",
    option_c := some "c", option_d := some "d", correct_answer := some "B",
    explanation := none }

/-! ## Helper lemmas -/

theorem mem_insertDesc {a r : StudyStreak} {l : List StudyStreak} :
    a ∈ insertDesc r l ↔ a = r ∨ a ∈ l := by
  induction l with
  | nil => simp [insertDesc]
  | cons s rest ih =>
    rw [insertDesc]
    split
    · simp [List.mem_cons]
    · simp [List.mem_cons, ih]
      tauto

theorem mem_sortDesc {a : StudyStreak} {l : List StudyStreak} :
    a ∈ sortDesc l ↔ a ∈ l := by
  induction l with
  | nil => simp [sortDesc]
  | cons r rest ih =>
    rw [sortDesc]
    simp [mem_insertDesc, ih]

theorem length_insertDesc (r : StudyStreak) (l : List StudyStreak) :
    (insertDesc r l).length = l.length + 1 := by
  induction l with
  | nil => rfl
  | cons s rest ih =>
    rw [insertDesc]
    split
    · simp
    · simp [ih]

theorem length_sortDesc (l : List StudyStreak) : (sortDesc l).length = l.length := by
  induction l with
  | nil => rfl
  | cons r rest ih =>
    rw [sortDesc, length_insertDesc, ih]
    rfl

theorem sortDesc_ne_nil {l : List StudyStreak} (h : l ≠ []) : sortDesc l ≠ [] := by
  intro h0
  apply h
  have hl := length_sortDesc l
  rw [h0] at hl
  exact List.length_eq_zero.mp hl.symm

theorem hasDate_false_iff {rows : List StudyStreak} {d : ℤ} :
    hasDate rows d = false ↔ ∀ r ∈ rows, r.date ≠ d := by
  simp [hasDate]

/-! ## Claim C6 -/

/-- Claim C6: for every user and every set of StreakDay rows, the
longest streak reported by the streak statistics is at least the
current streak reported by the same call. -/
theorem longest_streak_ge_current (rows : List StudyStreak) (today : ℤ) :
    (computeStreakStats rows today).current_streak ≤
      (computeStreakStats rows today).longest_streak := by
  rcases h : sortDesc rows with _ | ⟨f, rest⟩
  · simp [computeStreakStats, h]
  · simp only [computeStreakStats, h, longestStreakOf]
    exact le_max_right _ _

/-! ## Claim C3 -/

theorem currentStreakAux_eq_zero {rows : List StudyStreak} {d : ℤ}
    (h : hasDate rows d = false) (n : ℕ) : currentStreakAux rows n d = 0 := by
  cases n with
  | zero => rfl
  | succ n => simp [currentStreakAux, h]

theorem statusOf_of_ne_of_zero {lastDate today : ℤ} (hlast : lastDate ≠ today) :
    statusOf lastDate today 0 = "inactive" := by
  rw [statusOf, if_neg (by omega), if_neg (by simp), if_neg (by simp)]

/-- Claim C3 counterexample: a user whose only StreakDay row is
yesterday (today = 0, row at -1).  The view reports current streak 0,
but the streak status is "inactive", not "active_yesterday": the
active_yesterday branch also requires current streak > 0, which can
never hold when today has no row. -/
theorem streak_yesterday_counterexample :
    (computeStreakStats [⟨7, -1, 1, 0, 0, 0⟩] 0).current_streak = 0 ∧
    (computeStreakStats [⟨7, -1, 1, 0, 0, 0⟩] 0).streak_status ≠ "active_yesterday" ∧
    (computeStreakStats [⟨7, -1, 1, 0, 0, 0⟩] 0).streak_status = "inactive" := by
  decide

/-- Claim C3 (amended): for every user with at least one StreakDay row,
none of them for today (whatever a row for yesterday), the view reports
current streak 0 and streak status "inactive". -/
theorem streak_no_today_inactive (rows : List StudyStreak) (today : ℤ)
    (hne : rows ≠ [])
    (hnotoday : ∀ r ∈ rows, r.date ≠ today)
    (hyest : ∃ r ∈ rows, r.date = today - 1) :
    (computeStreakStats rows today).current_streak = 0 ∧
    (computeStreakStats rows today).streak_status = "inactive" := by
  rcases h : sortDesc rows with _ | ⟨f, rest⟩
  · exact absurd h (sortDesc_ne_nil hne)
  · have hsortmem : ∀ r ∈ f :: rest, r.date ≠ today := by
      intro r hr
      exact hnotoday r (mem_sortDesc.mp (h ▸ hr))
    have hhas : hasDate (f :: rest) today = false :=
      hasDate_false_iff.mpr hsortmem
    have hcur : currentStreakOf (f :: rest) today = 0 :=
      currentStreakAux_eq_zero hhas 365
    have hf : f.date ≠ today := hsortmem f (List.mem_cons_self f rest)
    simp only [computeStreakStats, h, hcur]
    exact ⟨trivial, statusOf_of_ne_of_zero hf⟩

/-- Witness for the amended claim C3 at a concrete input. -/
theorem streak_no_today_inactive_witness :
    (([⟨7, -1, 1, 0, 0, 0⟩] : List StudyStreak) ≠ []) ∧
    (∀ r ∈ ([⟨7, -1, 1, 0, 0, 0⟩] : List StudyStreak), r.date ≠ (0 : ℤ)) ∧
    (∃ r ∈ ([⟨7, -1, 1, 0, 0, 0⟩] : List StudyStreak), r.date = (0 : ℤ) - 1) ∧
    ((computeStreakStats [⟨7, -1, 1, 0, 0, 0⟩] 0).current_streak = 0 ∧
      (computeStreakStats [⟨7, -1, 1, 0, 0, 0⟩] 0).streak_status = "inactive") :=
  ⟨by decide, by decide, by decide,
    streak_no_today_inactive [⟨7, -1, 1, 0, 0, 0⟩] 0 (by decide) (by decide) (by decide)⟩

/-! ## Claim C5 -/

/-- Claim C5 counterexample: for a user with no StreakDay rows the view
answers with an empty activity calendar, not a 365-entry one. -/
theorem calendar_counterexample :
    (computeStreakStats ([] : List StudyStreak) 0).activity_calendar.length = 0 ∧
    (computeStreakStats ([] : List StudyStreak) 0).activity_calendar.length ≠ 365 := by
  decide

theorem calendarEntry_date (rows : List StudyStreak) (d : ℤ) :
    (calendarEntry rows d).date = d := by
  rcases h : rows.find? (fun r => r.date == d) with _ | r <;> simp [calendarEntry, h]

theorem calendarEntry_of_absent {rows : List StudyStreak} {d : ℤ}
    (h : ∀ r ∈ rows, r.date ≠ d) :
    calendarEntry rows d = { date := d, count := 0, lessons := 0, quizzes := 0, notes := 0 } := by
  have hfind : rows.find? (fun r => r.date == d) = none := by
    rw [List.find?_eq_none]
    intro r hr
    simp [h r hr]
  rw [calendarEntry, hfind]

theorem calendarOf_length (sorted : List StudyStreak) (today : ℤ) :
    (calendarOf sorted today).length = 365 := by
  rw [calendarOf, List.length_map, List.length_range]

theorem calendarOf_get? (sorted : List StudyStreak) (today : ℤ) {i : ℕ} (hi : i < 365) :
    (calendarOf sorted today).get? i =
      some (calendarEntry sorted (today - 364 + (i : ℤ))) := by
  rw [calendarOf, List.get?_eq_getElem?, List.getElem?_map, List.getElem?_range hi]
  rfl

/-- Claim C5 (amended): for every user with at least one StreakDay row,
the activity calendar has exactly 365 entries, the entry at index i
carries the date today - 364 + i (so the entries cover today-364 ..
today, oldest first), and an entry whose date has no StreakDay row is
zero-filled. -/
theorem calendar_shape (rows : List StudyStreak) (today : ℤ) (hne : rows ≠ []) :
    (computeStreakStats rows today).activity_calendar.length = 365 ∧
    ∀ i : ℕ, i < 365 →
      ((computeStreakStats rows today).activity_calendar.get? i).map
          (fun e => e.date) = some (today - 364 + (i : ℤ)) ∧
      (hasDate rows (today - 364 + (i : ℤ)) = false →
        (computeStreakStats rows today).activity_calendar.get? i =
          some { date := today - 364 + (i : ℤ), count := 0, lessons := 0,
                 quizzes := 0, notes := 0 }) := by
  rcases h : sortDesc rows with _ | ⟨f, rest⟩
  · exact absurd h (sortDesc_ne_nil hne)
  · simp only [computeStreakStats, h]
    refine ⟨calendarOf_length _ _, ?_⟩
    intro i hi
    rw [calendarOf_get? _ _ hi]
    constructor
    · simp [calendarEntry_date]
    · intro habs
      have habs' : ∀ r ∈ f :: rest, r.date ≠ today - 364 + (i : ℤ) := by
        intro r hr
        exact (hasDate_false_iff.mp habs) r (mem_sortDesc.mp (h ▸ hr))
      rw [calendarEntry_of_absent habs']

/-- Witness for the amended claim C5 at a concrete input. -/
theorem calendar_shape_witness :
    (([⟨7, 0, 1, 0, 0, 0⟩] : List StudyStreak) ≠ []) ∧
    ((computeStreakStats [⟨7, 0, 1, 0, 0, 0⟩] 0).activity_calendar.length = 365 ∧
      ∀ i : ℕ, i < 365 →
        ((computeStreakStats [⟨7, 0, 1, 0, 0, 0⟩] 0).activity_calendar.get? i).map
            (fun e => e.date) = some (0 - 364 + (i : ℤ)) ∧
        (hasDate [⟨7, 0, 1, 0, 0, 0⟩] (0 - 364 + (i : ℤ)) = false →
          (computeStreakStats [⟨7, 0, 1, 0, 0, 0⟩] 0).activity_calendar.get? i =
            some { date := 0 - 364 + (i : ℤ), count := 0, lessons := 0,
                   quizzes := 0, notes := 0 })) :=
  ⟨by decide, calendar_shape [⟨7, 0, 1, 0, 0, 0⟩] 0 (by decide)⟩

/-! ## Claims C1 and C4 (progress engine) -/

theorem calculate_progress_pos (db : DB) (p : LearningPlan)
    (h : ¬ totalLessons db p.id = 0) :
    calculate_progress db p =
      (round2 ((completedLessons db p : ℚ) / (totalLessons db p.id : ℚ) * 100),
       { db with plans := updatePlanProgress db.plans p.id (round2 ((completedLessons db p : ℚ) / (totalLessons db p.id : ℚ) * 100)) }) := by
  simp only [calculate_progress, if_neg h]

theorem calculate_progress_zero (db : DB) (p : LearningPlan)
    (h : totalLessons db p.id = 0) :
    calculate_progress db p = (0, db) := by
  simp only [calculate_progress, if_pos h]

theorem updatePlanProgress_mem {plans : List LearningPlan} {planId : ℕ} {pct : ℚ}
    {q : LearningPlan} (hq : q ∈ updatePlanProgress plans planId pct)
    (hid : q.id = planId) : q.progress = pct := by
  rw [updatePlanProgress] at hq
  rcases List.mem_map.mp hq with ⟨q0, _, rfl⟩
  by_cases h : (q0.id == planId) = true
  · simp [h]
  · rw [if_neg h] at hid ⊢
    exact absurd hid (by simpa using h)

theorem completedLessons_cons_ne (db : DB) (p : LearningPlan) (m : UserProgress)
    (hm : m.user ≠ p.user) :
    completedLessons { db with marks := m :: db.marks } p = completedLessons db p := by
  have hbeq : (m.user == p.user) = false := by simpa using hm
  show ((m :: db.marks).filter
      (fun x => lessonInPlan db x.lesson p.id && x.user == p.user && x.is_completed)).length =
    completedLessons db p
  rw [List.filter_cons]
  simp only [hbeq, Bool.and_false, Bool.false_and, if_false]
  rfl

/-- Claim C1: for a plan with N ≥ 1 lessons of which K are marked
completed by the owner, calculate_progress returns round(100 K / N, 2),
stores that value on the plan row, and a completed mark of a user other
than the owner never changes the result (here K is the count of
is_completed marks of the owner on the plan's lessons, as in the
source; the ORM keeps one such mark per (user, lesson) pair). -/
theorem progress_formula (db : DB) (p : LearningPlan) (m : UserProgress)
    (hN : 1 ≤ totalLessons db p.id) (hm : m.user ≠ p.user) :
    (calculate_progress db p).1 =
      round2 (100 * (completedLessons db p : ℚ) / (totalLessons db p.id : ℚ)) ∧
    (∀ q ∈ (calculate_progress db p).2.plans, q.id = p.id →
      q.progress = (calculate_progress db p).1) ∧
    (calculate_progress { db with marks := m :: db.marks } p).1 =
      (calculate_progress db p).1 := by
  have h0 : ¬ totalLessons db p.id = 0 := by omega
  have hform : (completedLessons db p : ℚ) / (totalLessons db p.id : ℚ) * 100 =
      100 * (completedLessons db p : ℚ) / (totalLessons db p.id : ℚ) := by ring
  refine ⟨?_, ?_, ?_⟩
  · rw [calculate_progress_pos db p h0, hform]
  · intro q hq hid
    rw [calculate_progress_pos db p h0] at hq ⊢
    exact updatePlanProgress_mem hq hid
  · have h0' : ¬ totalLessons { db with marks := m :: db.marks } p.id = 0 := h0
    rw [calculate_progress_pos _ p h0', calculate_progress_pos db p h0]
    have hc := completedLessons_cons_ne db p m hm
    have ht : totalLessons { db with marks := m :: db.marks } p.id =
        totalLessons db p.id := rfl
    rw [hc, ht]

/-- Witness for claim C1: exDB1 has 2 lessons, 1 completed by the
owner, and exMark9 is a completed mark of another user. -/
theorem progress_formula_witness :
    1 ≤ totalLessons exDB1 exPlan1.id ∧ exMark9.user ≠ exPlan1.user ∧
    ((calculate_progress exDB1 exPlan1).1 =
        round2 (100 * (completedLessons exDB1 exPlan1 : ℚ) /
          (totalLessons exDB1 exPlan1.id : ℚ)) ∧
      (∀ q ∈ (calculate_progress exDB1 exPlan1).2.plans, q.id = exPlan1.id →
        q.progress = (calculate_progress exDB1 exPlan1).1) ∧
      (calculate_progress { exDB1 with marks := exMark9 :: exDB1.marks } exPlan1).1 =
        (calculate_progress exDB1 exPlan1).1) :=
  ⟨by decide, by decide, progress_formula exDB1 exPlan1 exMark9 (by decide) (by decide)⟩

/-- Claim C4 counterexample: a plan with zero lessons and stored
progress 50.  calculate_progress returns 0.0 but does not write the
stored progress field, which keeps its prior value 50. -/
theorem zero_lessons_counterexample :
    (calculate_progress dbC4 pC4).1 = 0 ∧
    ¬ (∀ q ∈ (calculate_progress dbC4 pC4).2.plans, q.id = pC4.id → q.progress = 0) := by
  constructor
  · rfl
  · intro hall
    have hmem : pC4 ∈ (calculate_progress dbC4 pC4).2.plans := by
      rw [calculate_progress_zero dbC4 pC4 rfl]
      exact List.mem_singleton_self pC4
    have h50 : (50 : ℚ) = 0 := hall pC4 hmem rfl
    norm_num at h50

/-- Claim C4 (amended): for a plan with zero lessons,
calculate_progress returns 0.0, never raises, and leaves the store —
in particular the plan's stored progress field — unchanged. -/
theorem zero_lessons_progress (db : DB) (p : LearningPlan)
    (h : totalLessons db p.id = 0) :
    calculate_progress db p = (0, db) :=
  calculate_progress_zero db p h

/-- Witness for the amended claim C4 at a concrete input. -/
theorem zero_lessons_progress_witness :
    totalLessons dbC4 pC4.id = 0 ∧ calculate_progress dbC4 pC4 = (0, dbC4) :=
  ⟨by decide, zero_lessons_progress dbC4 pC4 (by decide)⟩

/-! ## Claims C2 and C7 (quiz scoring and attempt persistence) -/

/-- The number of submitted answers matching the stored correct label
case-insensitively — the count named C by the specification. -/
def countCorrectCI (db : DB) (quizId : ℕ) (answers : List (ℕ × String)) : ℕ :=
  ((quizQuestions db quizId).filter
    (fun q => upper (lookupAnswer answers q.id) == upper q.correct_answer)).length

theorem recordQuiz_attempts (db : DB) (u : ℕ) (t : ℤ) :
    (recordQuiz db u t).attempts = db.attempts := by
  rcases h : findStreak db.streaks u t with _ | s <;> simp [recordQuiz, h]

theorem quizSubmit_some_elim {db : DB} {u qid : ℕ} {answers : List (ℕ × String)}
    {today : ℤ} {res : SubmitResult} {db2 : DB}
    (h : quizSubmit db u qid answers today = some (res, db2)) :
    res = { score := round2 (rawScore db qid answers),
            correct_count := correctCount db qid answers,
            total_questions := (quizQuestions db qid).length,
            results := gradeResults db qid answers } ∧
    db2 = recordQuiz { db with attempts := { user := u, quiz := qid, score := rawScore db qid answers, answers := answers } :: db.attempts } u today := by
  rcases hq : db.quizzes.find? (fun z => z.id == qid && quizOwnedBy db z u) with _ | quiz
  · rw [quizSubmit] at h
    rw [hq] at h
    exact absurd h (by simp)
  · have hid : quiz.id = qid := by
      have hp := List.find?_some hq
      simp only [Bool.and_eq_true, beq_iff_eq] at hp
      exact hp.1
    rw [quizSubmit] at h
    rw [hq] at h
    subst hid
    simp only [Option.some_inj, Prod.mk.injEq] at h
    exact ⟨h.1.symm, h.2.symm⟩

/-- round2 is exactly ⌊100 x + 1/2⌋ / 100: rounding to the nearest
multiple of 1/100. -/
theorem round2_eq_floor (x : ℚ) : round2 x = ((⌊x * 100 + 1 / 2⌋ : ℤ) : ℚ) / 100 := by
  rw [round2, Rat.mkRat_eq_divInt, Rat.divInt_eq_div]
  have hd : (0 : ℤ) ≤ 2 * (x.den : ℤ) := by positivity
  rw [Int.fdiv_eq_ediv _ hd]
  have hden : ((x.den : ℚ)) ≠ 0 := by
    exact_mod_cast x.den_ne_zero
  have hxd : (x.num : ℚ) = x * (x.den : ℚ) := by
    have h := Rat.num_div_den x
    rwa [div_eq_iff hden] at h
  have hden2 : ((2 * x.den : ℕ) : ℚ) ≠ 0 := by
    push_cast
    positivity
  have hx : x * 100 + 1 / 2 = ((200 * x.num + (x.den : ℤ) : ℤ) : ℚ) / ((2 * x.den : ℕ) : ℚ) := by
    rw [eq_div_iff hden2]
    push_cast [hxd]
    ring
  rw [hx, Rat.floor_intCast_div_natCast]
  have hcast : (2 * (x.den : ℤ)) = ((2 * x.den : ℕ) : ℤ) := by push_cast; ring
  rw [hcast]
  norm_num

/-- 100 round2 x is always an integer divided by 100. -/
theorem round2_shape (x : ℚ) : ∃ n : ℤ, round2 x = (n : ℚ) / 100 := by
  refine ⟨(200 * x.num + x.den).fdiv (2 * x.den), ?_⟩
  rw [round2, Rat.mkRat_eq_divInt, Rat.divInt_eq_div]
  norm_num

theorem upper_label {s : String} (h : s ∈ (["A", "B", "C", "D"] : List String)) :
    upper s = s := by
  simp only [List.mem_cons, List.not_mem_nil, or_false] at h
  rcases h with rfl | rfl | rfl | rfl <;> decide

theorem label_ne_empty {s : String} (h : s ∈ (["A", "B", "C", "D"] : List String)) :
    s ≠ "" := by
  simp only [List.mem_cons, List.not_mem_nil, or_false] at h
  rcases h with rfl | rfl | rfl | rfl <;> decide

theorem correctCount_eq_CI (db : DB) (qid : ℕ) (answers : List (ℕ × String))
    (hAD : ∀ q ∈ db.questions, q.correct_answer ∈ (["A", "B", "C", "D"] : List String)) :
    correctCount db qid answers = countCorrectCI db qid answers := by
  rw [correctCount, gradeResults, countCorrectCI,
    ← List.countP_eq_length_filter, ← List.countP_eq_length_filter, List.countP_map]
  apply List.countP_congr
  intro q hq
  have hu : upper q.correct_answer = q.correct_answer :=
    upper_label (hAD q (List.mem_filter.mp hq).1)
  simp [Function.comp, gradeQuestion, hu]

theorem gradeQuestion_missing {answers : List (ℕ × String)} {q : QuizQuestion}
    (hmiss : ∀ a ∈ answers, a.1 ≠ q.id) (hne : q.correct_answer ≠ "") :
    gradeQuestion answers q =
      { question_id := q.id, question := q.question_text, user_answer := "",
        correct_answer := q.correct_answer, is_correct := false,
        explanation := q.explanation } := by
  have hfind : answers.find? (fun a => a.1 == q.id) = none := by
    rw [List.find?_eq_none]
    intro a ha
    simpa using hmiss a ha
  have hlook : lookupAnswer answers q.id = "" := by
    rw [lookupAnswer, hfind]
  have hemp : upper "" = "" := rfl
  have hbeq : (("" : String) == q.correct_answer) = false := by
    rw [beq_eq_false_iff_ne]
    exact fun h => hne h.symm
  rw [gradeQuestion, hlook, hemp]
  simp [hbeq]

/-- Claim C2 (amended): for a quiz with Q questions and C submitted
answers matching the stored correct label case-insensitively, the view
computes and persists the raw score C/Q*100 (0 when Q = 0, without any
division error) and returns it rounded to two decimals in the response
body; a question missing from the answer map is graded with an empty
submitted answer and counted incorrect, never treated as an error. -/
theorem quiz_score_spec (db : DB) (u qid : ℕ) (answers : List (ℕ × String)) (today : ℤ)
    (hsome : (quizSubmit db u qid answers today).isSome = true)
    (hAD : ∀ q ∈ db.questions, q.correct_answer ∈ (["A", "B", "C", "D"] : List String)) :
    ∀ res db2, quizSubmit db u qid answers today = some (res, db2) →
      res.total_questions = (quizQuestions db qid).length ∧
      res.correct_count = countCorrectCI db qid answers ∧
      rawScore db qid answers = (if 0 < (quizQuestions db qid).length then (countCorrectCI db qid answers : ℚ) / ((quizQuestions db qid).length : ℚ) * 100 else 0) ∧
      res.score = round2 (rawScore db qid answers) ∧
      (∀ q ∈ quizQuestions db qid, (∀ a ∈ answers, a.1 ≠ q.id) →
        gradeQuestion answers q =
          { question_id := q.id, question := q.question_text, user_answer := "",
            correct_answer := q.correct_answer, is_correct := false,
            explanation := q.explanation }) := by
  intro res db2 h
  obtain ⟨hres, _⟩ := quizSubmit_some_elim h
  subst hres
  have hCI := correctCount_eq_CI db qid answers hAD
  refine ⟨rfl, hCI, ?_, rfl, ?_⟩
  · rw [rawScore, hCI]
  · intro q hq hmiss
    exact gradeQuestion_missing hmiss
      (label_ne_empty (hAD q (List.mem_filter.mp hq).1))

/-- Witness for the amended claim C2 at a concrete input: quiz of three
questions with correct answers A, B, C and submission a / x / C. -/
theorem quiz_score_spec_witness :
    (quizSubmit exDB2 7 1 exAnswers 0).isSome = true ∧
    (∀ q ∈ exDB2.questions, q.correct_answer ∈ (["A", "B", "C", "D"] : List String)) ∧
    (∀ res db2, quizSubmit exDB2 7 1 exAnswers 0 = some (res, db2) →
      res.total_questions = (quizQuestions exDB2 1).length ∧
      res.correct_count = countCorrectCI exDB2 1 exAnswers ∧
      rawScore exDB2 1 exAnswers = (if 0 < (quizQuestions exDB2 1).length then (countCorrectCI exDB2 1 exAnswers : ℚ) / ((quizQuestions exDB2 1).length : ℚ) * 100 else 0) ∧
      res.score = round2 (rawScore exDB2 1 exAnswers) ∧
      (∀ q ∈ quizQuestions exDB2 1, (∀ a ∈ exAnswers, a.1 ≠ q.id) →
        gradeQuestion exAnswers q =
          { question_id := q.id, question := q.question_text, user_answer := "",
            correct_answer := q.correct_answer, is_correct := false,
            explanation := q.explanation })) :=
  ⟨by decide, by decide, quiz_score_spec exDB2 7 1 exAnswers 0 (by decide) (by decide)⟩

/-- Claim C2 counterexample: on the three-question quiz with two
correct answers, the response score is round(200/3, 2), which differs
from C/Q*100 = 200/3; the claim that submission returns C/Q*100
exactly fails on the response body. -/
theorem quiz_score_counterexample :
    (quizSubmit exDB2 7 1 exAnswers 0).map
        (fun o => (o.1.total_questions, o.1.correct_count)) = some (3, 2) ∧
    (quizSubmit exDB2 7 1 exAnswers 0).map (fun o => o.1.score) =
      some (round2 (((2 : ℕ) : ℚ) / ((3 : ℕ) : ℚ) * 100)) ∧
    round2 (((2 : ℕ) : ℚ) / ((3 : ℕ) : ℚ) * 100) ≠ ((2 : ℕ) : ℚ) / ((3 : ℕ) : ℚ) * 100 := by
  refine ⟨by decide, rfl, ?_⟩
  intro h
  obtain ⟨n, hn⟩ := round2_shape (((2 : ℕ) : ℚ) / ((3 : ℕ) : ℚ) * 100)
  rw [hn] at h
  have h3 : (n : ℚ) * 3 = 20000 := by
    field_simp at h
    linarith
  have hz : n * 3 = 20000 := by exact_mod_cast h3
  omega

/-- Claim C7 (amended): every successful quiz submission prepends one
new QuizAttempt row, leaving all prior attempts untouched (never
overwriting or deduplicating); the attempt stores the raw submitted
answer mapping and the raw unrounded score C/Q*100, while the
rounded-to-2-decimals value appears only in the response body. -/
theorem quiz_attempt_persisted (db : DB) (u qid : ℕ) (answers : List (ℕ × String))
    (today : ℤ) (hsome : (quizSubmit db u qid answers today).isSome = true) :
    ∀ res db2, quizSubmit db u qid answers today = some (res, db2) →
      db2.attempts = { user := u, quiz := qid, score := rawScore db qid answers, answers := answers } :: db.attempts ∧
      res.score = round2 (rawScore db qid answers) := by
  intro res db2 h
  obtain ⟨hres, hdb⟩ := quizSubmit_some_elim h
  subst hres
  subst hdb
  exact ⟨recordQuiz_attempts _ _ _, rfl⟩

/-- Witness for the amended claim C7 at a concrete input. -/
theorem quiz_attempt_persisted_witness :
    (quizSubmit exDB2 7 1 exAnswers 0).isSome = true ∧
    (∀ res db2, quizSubmit exDB2 7 1 exAnswers 0 = some (res, db2) →
      db2.attempts = { user := 7, quiz := 1, score := rawScore exDB2 1 exAnswers, answers := exAnswers } :: exDB2.attempts ∧
      res.score = round2 (rawScore exDB2 1 exAnswers)) :=
  ⟨by decide, quiz_attempt_persisted exDB2 7 1 exAnswers 0 (by decide)⟩

/-- Claim C7 counterexample: on the same submission the persisted
attempt stores the raw score 200/3, not the rounded round(200/3, 2)
claimed for the score field. -/
theorem quiz_attempt_counterexample :
    (quizSubmit exDB2 7 1 exAnswers 0).map
        (fun o => o.2.attempts.map (fun a => a.score)) =
      some [((2 : ℕ) : ℚ) / ((3 : ℕ) : ℚ) * 100] ∧
    ((2 : ℕ) : ℚ) / ((3 : ℕ) : ℚ) * 100 ≠ round2 (((2 : ℕ) : ℚ) / ((3 : ℕ) : ℚ) * 100) := by
  refine ⟨rfl, ?_⟩
  intro h
  obtain ⟨n, hn⟩ := round2_shape (((2 : ℕ) : ℚ) / ((3 : ℕ) : ℚ) * 100)
  rw [hn] at h
  have h3 : (20000 : ℚ) = n * 3 := by
    field_simp at h
    linarith
  have hz : (20000 : ℤ) = n * 3 := by exact_mod_cast h3
  omega

/-! ## Claim C8 (quiz generation atomicity) -/

/-- Claim C8, evaluated at the failing input: on a lesson with no quiz
yet, the generation service yields two descriptors, the second missing
its option_a key.  The view creates the Quiz row first, writes the
first question, raises on the second, catches the exception and
reports failure (500) — but the orphaned Quiz row and its single
question row persist, so a parent quiz exists without its complete set
of children.  When the generation call itself fails (none), by
contrast, nothing is written. -/
theorem quiz_generate_orphan :
    (quizGenerate exDB8 7 1 5 10 (some [goodDesc, badDesc])).1 = GenOutcome.failed ∧
    ((quizGenerate exDB8 7 1 5 10 (some [goodDesc, badDesc])).2.quizzes.filter
      (fun z => z.id == 5)).length = 1 ∧
    ((quizGenerate exDB8 7 1 5 10 (some [goodDesc, badDesc])).2.questions.filter
      (fun q => q.quiz == 5)).length = 1 ∧
    (quizGenerate exDB8 7 1 5 10 none).1 = GenOutcome.failed ∧
    (quizGenerate exDB8 7 1 5 10 none).2.quizzes = [] ∧
    (quizGenerate exDB8 7 1 5 10 none).2.questions = [] := by
  decide

/-! ## Claims C9 and C10 (completion toggle and streak frame effects) -/

theorem calculate_progress_marks (db : DB) (p : LearningPlan) :
    ((calculate_progress db p).2).marks = db.marks := by
  by_cases h : totalLessons db p.id = 0
  · rw [calculate_progress_zero db p h]
  · rw [calculate_progress_pos db p h]

theorem calculate_progress_streaks (db : DB) (p : LearningPlan) :
    ((calculate_progress db p).2).streaks = db.streaks := by
  by_cases h : totalLessons db p.id = 0
  · rw [calculate_progress_zero db p h]
  · rw [calculate_progress_pos db p h]

theorem saveMark_streaks (db : DB) (u lid : ℕ) (m : UserProgress) :
    (saveMark db u lid m).streaks = db.streaks := by
  rw [saveMark]
  split <;> rfl

theorem recordLesson_marks (db : DB) (u : ℕ) (t : ℤ) :
    (recordLesson db u t).marks = db.marks := by
  rcases h : findStreak db.streaks u t with _ | s <;> simp [recordLesson, h]

theorem incLessons_tts (u : ℕ) (t : ℤ) (s : StudyStreak) :
    (incLessons u t s).total_time_spent = s.total_time_spent := by
  rw [incLessons]
  split <;> rfl

theorem incQuizzes_tts (u : ℕ) (t : ℤ) (s : StudyStreak) :
    (incQuizzes u t s).total_time_spent = s.total_time_spent := by
  rw [incQuizzes]
  split <;> rfl

theorem incNotes_tts (u : ℕ) (t : ℤ) (s : StudyStreak) :
    (incNotes u t s).total_time_spent = s.total_time_spent := by
  rw [incNotes]
  split <;> rfl

theorem recordLesson_tts {db : DB} {u : ℕ} {t : ℤ}
    (h0 : ∀ s ∈ db.streaks, s.total_time_spent = 0) :
    ∀ s ∈ (recordLesson db u t).streaks, s.total_time_spent = 0 := by
  intro s hs
  rcases hf : findStreak db.streaks u t with _ | s0 <;>
    simp only [recordLesson, hf] at hs
  · rcases List.mem_cons.mp hs with rfl | hmem
    · rfl
    · exact h0 s hmem
  · rcases List.mem_map.mp hs with ⟨x, hx, rfl⟩
    rw [incLessons_tts]
    exact h0 x hx

theorem recordQuiz_tts (db : DB) (u : ℕ) (t : ℤ)
    (h0 : ∀ s ∈ db.streaks, s.total_time_spent = 0) :
    ∀ s ∈ (recordQuiz db u t).streaks, s.total_time_spent = 0 := by
  intro s hs
  rcases hf : findStreak db.streaks u t with _ | s0 <;>
    simp only [recordQuiz, hf] at hs
  · rcases List.mem_cons.mp hs with rfl | hmem
    · rfl
    · exact h0 s hmem
  · rcases List.mem_map.mp hs with ⟨x, hx, rfl⟩
    rw [incQuizzes_tts]
    exact h0 x hx

theorem recordNote_tts (db : DB) (u : ℕ) (t : ℤ)
    (h0 : ∀ s ∈ db.streaks, s.total_time_spent = 0) :
    ∀ s ∈ (recordNote db u t).streaks, s.total_time_spent = 0 := by
  intro s hs
  rcases hf : findStreak db.streaks u t with _ | s0 <;>
    simp only [recordNote, hf] at hs
  · rcases List.mem_cons.mp hs with rfl | hmem
    · rfl
    · exact h0 s hmem
  · rcases List.mem_map.mp hs with ⟨x, hx, rfl⟩
    rw [incNotes_tts]
    exact h0 x hx

theorem lessonComplete_some_elim {db : DB} {u lid : ℕ} {now today : ℤ}
    {flag : Bool} {pct : ℚ} {db1 : DB}
    (h : lessonComplete db u lid now today = some (flag, pct, db1)) :
    ∃ lesson plan, db.lessons.find? (fun l => l.id == lid) = some lesson ∧
      db.plans.find? (fun p => p.id == lesson.plan && p.user == u) = some plan ∧
      flag = (toggledMark (oldMarkOf db u lid) lesson.time_estimate now).is_completed ∧
      db1 = (if (toggledMark (oldMarkOf db u lid) lesson.time_estimate now).is_completed
          then recordLesson (calculate_progress (saveMark db u lid (toggledMark (oldMarkOf db u lid) lesson.time_estimate now)) plan).2 u today
          else (calculate_progress (saveMark db u lid (toggledMark (oldMarkOf db u lid) lesson.time_estimate now)) plan).2) := by
  rcases hl : db.lessons.find? (fun l => l.id == lid) with _ | lesson
  · rw [lessonComplete] at h
    rw [hl] at h
    exact absurd h (by simp)
  · rcases hp : db.plans.find? (fun p => p.id == lesson.plan && p.user == u) with _ | plan
    · simp only [lessonComplete, hl, hp] at h
      exact absurd h (by simp)
    · simp only [lessonComplete, hl, hp, Option.some_inj, Prod.mk.injEq] at h
      exact ⟨lesson, plan, hl, hp, h.1.symm, h.2.2.symm⟩

/-- Claim C9: none of the three streak-updating flows ever writes the
StreakDay total_time_spent counter: if every stored streak row has
total_time_spent 0, the rows after a completion toggle, a quiz
submission and a note creation still all have total_time_spent 0 (each
flow touches only its own counter, and a freshly created row carries
the default 0; minutes spent are recorded only on the ProgressMark). -/
theorem streak_time_frame (db : DB) (u1 lid1 : ℕ) (now today1 : ℤ)
    (u2 qid : ℕ) (answers : List (ℕ × String)) (today2 : ℤ)
    (u3 lid3 : ℕ) (content : String) (today3 : ℤ)
    (h0 : ∀ s ∈ db.streaks, s.total_time_spent = 0)
    (h1 : (lessonComplete db u1 lid1 now today1).isSome = true)
    (h2 : (quizSubmit db u2 qid answers today2).isSome = true) :
    (∀ flag pct db1, lessonComplete db u1 lid1 now today1 = some (flag, pct, db1) →
      ∀ s ∈ db1.streaks, s.total_time_spent = 0) ∧
    (∀ res db2, quizSubmit db u2 qid answers today2 = some (res, db2) →
      ∀ s ∈ db2.streaks, s.total_time_spent = 0) ∧
    (∀ s ∈ (noteCreate db u3 lid3 content today3).streaks, s.total_time_spent = 0) := by
  refine ⟨?_, ?_, ?_⟩
  · intro flag pct db1 h
    obtain ⟨lesson, plan, hl, hp, _, hdb⟩ := lessonComplete_some_elim h
    subst hdb
    have hbase : ((calculate_progress (saveMark db u1 lid1 (toggledMark (oldMarkOf db u1 lid1) lesson.time_estimate now)) plan).2).streaks = db.streaks := by
      rw [calculate_progress_streaks, saveMark_streaks]
    split
    · intro s hs
      refine recordLesson_tts ?_ s hs
      intro x hx
      rw [hbase] at hx
      exact h0 x hx
    · intro s hs
      rw [hbase] at hs
      exact h0 s hs
  · intro res db2 h
    obtain ⟨_, hdb⟩ := quizSubmit_some_elim h
    subst hdb
    intro s hs
    exact recordQuiz_tts { db with attempts := { user := u2, quiz := qid, score := rawScore db qid answers, answers := answers } :: db.attempts } u2 today2 h0 s hs
  · intro s hs
    exact recordNote_tts { db with notes := { user := u3, lesson := lid3, content := content } :: db.notes } u3 today3 h0 s hs

/-- Witness for claim C9 at a concrete input where all three flows
fire. -/
theorem streak_time_frame_witness :
    (∀ s ∈ exDB9.streaks, s.total_time_spent = 0) ∧
    (lessonComplete exDB9 7 1 5 3).isSome = true ∧
    (quizSubmit exDB9 7 1 [] 3).isSome = true ∧
    ((∀ flag pct db1, lessonComplete exDB9 7 1 5 3 = some (flag, pct, db1) →
        ∀ s ∈ db1.streaks, s.total_time_spent = 0) ∧
      (∀ res db2, quizSubmit exDB9 7 1 [] 3 = some (res, db2) →
        ∀ s ∈ db2.streaks, s.total_time_spent = 0) ∧
      (∀ s ∈ (noteCreate exDB9 7 1 "n" 3).streaks, s.total_time_spent = 0)) :=
  ⟨by decide, by decide, by decide,
    streak_time_frame exDB9 7 1 5 3 7 1 [] 3 7 1 "n" 3 (by decide) (by decide) (by decide)⟩

theorem oldMarkOf_user (db : DB) (u lid : ℕ) : (oldMarkOf db u lid).user = u := by
  rcases hf : db.marks.find? (fun x => x.user == u && x.lesson == lid) with _ | x
  · simp [oldMarkOf, hf, defaultMark]
  · have hx := List.find?_some hf
    simp only [Bool.and_eq_true, beq_iff_eq] at hx
    simp [oldMarkOf, hf, hx.1]

theorem oldMarkOf_lesson (db : DB) (u lid : ℕ) : (oldMarkOf db u lid).lesson = lid := by
  rcases hf : db.marks.find? (fun x => x.user == u && x.lesson == lid) with _ | x
  · simp [oldMarkOf, hf, defaultMark]
  · have hx := List.find?_some hf
    simp only [Bool.and_eq_true, beq_iff_eq] at hx
    simp [oldMarkOf, hf, hx.2]

theorem saveMark_mem_eq {db : DB} {u lid : ℕ} {m : UserProgress}
    (hmu : m.user = u) (hml : m.lesson = lid) :
    ∀ x ∈ (saveMark db u lid m).marks, x.user = u → x.lesson = lid → x = m := by
  intro x hx hxu hxl
  rw [saveMark] at hx
  split at hx
  case isTrue hany =>
    rcases List.mem_map.mp hx with ⟨y, hy, rfl⟩
    by_cases hym : (y.user == u && y.lesson == lid) = true
    · rw [if_pos hym]
    · rw [if_neg hym] at hxu hxl ⊢
      exact absurd (by simp [hxu, hxl]) hym
  case isFalse hany =>
    rcases List.mem_cons.mp hx with rfl | hmem
    · rfl
    · exact absurd (List.any_eq_true.mpr ⟨x, hmem, by simp [hxu, hxl]⟩) hany

theorem estimateOf_of_find {db : DB} {lid : ℕ} {lesson : Lesson}
    (h : db.lessons.find? (fun l => l.id == lid) = some lesson) :
    estimateOf db lid = lesson.time_estimate := by
  rw [estimateOf, h]

/-- Claim C10: after a successful completion toggle, the affected
(user, lesson) ProgressMark has completed_at non-null exactly when
is_completed is true; is_completed is the negation of the previous
value; completed_at is set to the current time on the transition to
completed and cleared to null otherwise; and time_spent becomes the
lesson's time estimate exactly when the mark transitions to completed
while its time_spent was 0, otherwise it is unchanged. -/
theorem toggle_mark_invariant (db : DB) (u lid : ℕ) (now today : ℤ)
    (hsome : (lessonComplete db u lid now today).isSome = true) :
    ∀ flag pct db1, lessonComplete db u lid now today = some (flag, pct, db1) →
      ∀ m ∈ db1.marks, m.user = u → m.lesson = lid →
        ((m.completed_at ≠ none) ↔ m.is_completed = true) ∧
        m.is_completed = !(oldMarkOf db u lid).is_completed ∧
        m.completed_at = (if m.is_completed then some now else none) ∧
        m.time_spent = (if m.is_completed = true ∧ (oldMarkOf db u lid).time_spent = 0 then estimateOf db lid else (oldMarkOf db u lid).time_spent) := by
  intro flag pct db1 h m hm hmu hml
  obtain ⟨lesson, plan, hl, hp, _, hdb⟩ := lessonComplete_some_elim h
  subst hdb
  rw [estimateOf_of_find hl]
  have hmarks : m ∈ (saveMark db u lid (toggledMark (oldMarkOf db u lid) lesson.time_estimate now)).marks := by
    rcases hc : (toggledMark (oldMarkOf db u lid) lesson.time_estimate now).is_completed with _ | _
    · rw [hc] at hm
      simp only [Bool.false_eq_true, if_false] at hm
      rw [calculate_progress_marks] at hm
      exact hm
    · rw [hc] at hm
      simp only [if_true] at hm
      rw [recordLesson_marks, calculate_progress_marks] at hm
      exact hm
  have hmeq : m = toggledMark (oldMarkOf db u lid) lesson.time_estimate now :=
    saveMark_mem_eq (by rw [toggledMark, oldMarkOf_user])
      (by rw [toggledMark, oldMarkOf_lesson]) m hmarks hmu hml
  subst hmeq
  refine ⟨?_, rfl, rfl, ?_⟩
  · rcases hb : (oldMarkOf db u lid).is_completed with _ | _ <;>
      simp [toggledMark, hb]
  · rcases hb : (oldMarkOf db u lid).is_completed with _ | _
    · by_cases h2 : (oldMarkOf db u lid).time_spent = 0 <;>
        simp [toggledMark, hb, h2]
    · simp [toggledMark, hb]

/-- Witness for claim C10 at a concrete input: toggling the only
lesson of exDB9 to completed. -/
theorem toggle_mark_invariant_witness :
    (lessonComplete exDB9 7 1 5 3).isSome = true ∧
    (∀ flag pct db1, lessonComplete exDB9 7 1 5 3 = some (flag, pct, db1) →
      ∀ m ∈ db1.marks, m.user = 7 → m.lesson = 1 →
        ((m.completed_at ≠ none) ↔ m.is_completed = true) ∧
        m.is_completed = !(oldMarkOf exDB9 7 1).is_completed ∧
        m.completed_at = (if m.is_completed then some 5 else none) ∧
        m.time_spent = (if m.is_completed = true ∧ (oldMarkOf exDB9 7 1).time_spent = 0 then estimateOf exDB9 1 else (oldMarkOf exDB9 7 1).time_spent)) :=
  ⟨by decide, toggle_mark_invariant exDB9 7 1 5 3 (by decide)⟩

end LearnPlatform
